import Mathlib

/-!
Verification of the request-scoped multi-tenant access-control pipeline of the
counter-app repository (a NestJS multi-tenant SaaS boilerplate).

The definitions below are a shallow embedding of the TypeScript source:
  - TenantMiddleware (src/common/middleware, second part of logger.middleware.ts)
  - TenantGuard      (src/modules/rbac/entities/role.entity.ts, fourth part)
  - RolesGuard       (packages/backend/src/common/guards/roles.guard.ts)
  - PrismaService    (packages/backend/src/database/entities/base.entity.ts,
    second part: tenant-isolation middleware, enableSoftDelete, withoutTenantScope)
  - AuditInterceptor (packages/backend/src/common/interceptors/audit.interceptor.ts)
  - constants        (IS_PUBLIC_KEY / TENANT_ID_KEY / HTTP_MESSAGES / UserRole, part_005)

JavaScript string-or-undefined values are modelled as Option String; JS
truthiness of such a value (undefined and the empty string are falsy) is
modelled explicitly by jsTruthy / jsOr / jsNorm.
-/

namespace TenantCore

/-- Models JS truthiness of a string-or-undefined value: undefined and the
empty string are falsy, every other string is truthy. -/
def jsTruthy : Option String → Bool
  | none => false
  | some s => decide (s ≠ "")

/-- Models the JS expression a || b on string-or-undefined values. -/
def jsOr (a b : Option String) : Option String :=
  match a with
  | some s => if s = "" then b else some s
  | none => b

/-- Models the JS expression x || null on a string-or-undefined value:
normalizes the empty string (falsy) to null. -/
def jsNorm (a : Option String) : Option String :=
  match a with
  | some s => if s = "" then none else some s
  | none => none

/-! ## Constants (src/common/constants, unnamed part_005) -/

/-- UserRole.SUPER_ADMIN in the constants file. -/
def SUPER_ADMIN : String := "super_admin"

/-- HTTP_MESSAGES.TENANT_REQUIRED in the constants file. -/
def MSG_TENANT_REQUIRED : String := "Tenant context is required"

/-- HTTP_MESSAGES.TENANT_MISMATCH in the constants file. -/
def MSG_TENANT_MISMATCH : String := "Tenant mismatch - access denied"

/-! ## Request and principal shapes -/

/-- The parts of the HTTP request the tenant middleware reads: the
Authorization header, the X-Tenant-ID header (already lowercased key),
and the request path. -/
structure Request where
  authorization : Option String
  tenantHeader : Option String
  path : String
deriving DecidableEq

/-- The decoded (unverified) JWT payload, as consumed by
TenantMiddleware.extractFromJWT; only the tenantId claim is read, which
may be absent. -/
structure JwtPayload where
  tenantId : Option String
deriving DecidableEq

/-- The shape of request.user produced by the JWT strategy and consumed by
TenantGuard and RolesGuard: principal id, tenant id, role names.  In the
source user.roles may also be undefined; that case behaves like the empty
list in matchRoles (both fail its non-empty check), so roles is a list. -/
structure RequestUser where
  id : String
  tenantId : String
  roles : List String
deriving DecidableEq

/-! ## TenantMiddleware (tenant resolver) -/

/-- Splits a character list at every space, keeping empty pieces, as the JS
String.prototype.split(' ') does. -/
def jsSplitSpaceAux : List Char → List Char → List (List Char)
  | [], acc => [acc.reverse]
  | c :: cs, acc =>
    if c = ' ' then acc.reverse :: jsSplitSpaceAux cs []
    else jsSplitSpaceAux cs (c :: acc)

/-- The JS expression s.split(' '). -/
def jsSplitSpace (s : String) : List String :=
  (jsSplitSpaceAux s.toList []).map String.mk

/-- TenantMiddleware.extractTokenFromHeader: splits the Authorization header
on a space; returns the second component when the first is Bearer.  The JS
destructuring yields undefined when there is no second component. -/
def extractTokenFromHeader (req : Request) : Option String :=
  match req.authorization with
  | none => none
  | some h =>
    let parts := jsSplitSpace h
    if parts.headD "" = "Bearer" then parts.get? 1 else none

/-- TenantMiddleware.extractFromJWT: decodes the bearer token without
verifying the signature (jwtService.decode, passed here as the decode
oracle) and returns decoded?.tenantId || null.  A missing or falsy token,
a failed decode, or a missing claim all yield null. -/
def extractFromJWT (decode : String → Option JwtPayload) (req : Request) :
    Option String :=
  match jsNorm (extractTokenFromHeader req) with
  | none => none
  | some tok =>
    match decode tok with
    | none => none
    | some payload => jsNorm payload.tenantId

/-- TenantMiddleware.extractFromHeader: req.headers[x-tenant-id] || null. -/
def extractFromHeader (req : Request) : Option String :=
  jsNorm req.tenantHeader

/-- The character class of the slug capture group in the source regex
/\/public\/book\/([a-z0-9-]+)/i : ASCII letters (case-insensitive flag),
digits, hyphen. -/
def isSlugChar (c : Char) : Bool :=
  c.isAlpha || c.isDigit || c = '-'

/-- The literal part of the slug route pattern. -/
def publicBookPat : List Char := "/public/book/".toList

/-- Case-insensitive prefix test, modelling the i flag of the regex on the
literal part of the pattern. -/
def ciPrefix : List Char → List Char → Bool
  | [], _ => true
  | _ :: _, [] => false
  | p :: ps, c :: cs => p.toLower = c.toLower && ciPrefix ps cs

/-- Leftmost regex search for /\/public\/book\/([a-z0-9-]+)/i : at the first
position where the literal pattern matches and at least one slug character
follows, capture the maximal run of slug characters. -/
def slugScan : List Char → Option (List Char)
  | [] => none
  | c :: cs =>
    if ciPrefix publicBookPat (c :: cs) then
      let cap := ((c :: cs).drop publicBookPat.length).takeWhile isSlugChar
      if cap.isEmpty then slugScan cs else some cap
    else slugScan cs

/-- req.path.match on the slug regex, returning the captured group. -/
def slugCapture (path : String) : Option String :=
  (slugScan path.toList).map (fun l => String.mk l)

/-- TenantMiddleware.extractFromSlug: when the path matches the public
booking pattern the source returns null anyway (the tenant-by-slug lookup is
commented out: "Placeholder until TenantService is implemented"); when it
does not match it also returns null. -/
def extractFromSlug (req : Request) : Option String :=
  match slugCapture req.path with
  | some _ => none
  | none => none

/-- The body of TenantMiddleware.use that computes the tenant id:
priority 1 JWT claim, priority 2 header, priority 3 slug, each tried only
if the previous one yielded a falsy value (the source assigns and then
checks if (!tenantId)). -/
def tenantResolve (decode : String → Option JwtPayload) (req : Request) :
    Option String :=
  jsOr (extractFromJWT decode req)
    (jsOr (extractFromHeader req) (extractFromSlug req))

/-- The effect of TenantMiddleware.use on the request context: when the
resolved tenant id is truthy it is stored both in CLS (TENANT_ID_KEY) and
on the request object; otherwise both stay unset.  Returns
(cls tenant id, request.tenantId). -/
def tenantMiddlewareRun (decode : String → Option JwtPayload) (req : Request) :
    Option String × Option String :=
  match tenantResolve decode req with
  | some t => if t = "" then (none, none) else (some t, some t)
  | none => (none, none)

/-! ## Guard exceptions -/

/-- The NestJS exceptions thrown by the guards, with their messages. -/
inductive GuardException where
  | unauthorizedException (msg : String)
  | forbiddenException (msg : String)
deriving DecidableEq

/-! ## TenantGuard -/

/-- TenantGuard.canActivate.  Inputs: the IS_PUBLIC_KEY metadata of the
route (the only route metadata the guard reads), the CLS tenant id, the
optional request.user, and request.tenantId.  On allow it returns the
request.tenantId after the guard (the guard attaches the resolved tenant).
Source: public routes return true at once; then
tenantId = cls.get(TENANT_ID_KEY) || request.tenantId; a falsy tenantId is
an UnauthorizedException(TENANT_REQUIRED); a present user whose tenantId
differs is a ForbiddenException(TENANT_MISMATCH). -/
def tenantGuardCanActivate (isPublic : Bool) (clsTenant : Option String)
    (user : Option RequestUser) (reqTenant : Option String) :
    Except GuardException (Option String) :=
  if isPublic then .ok reqTenant
  else
    match jsOr clsTenant reqTenant with
    | none => .error (.unauthorizedException MSG_TENANT_REQUIRED)
    | some t =>
      if t = "" then .error (.unauthorizedException MSG_TENANT_REQUIRED)
      else
        match user with
        | some u =>
          if u.tenantId = t then .ok (some t)
          else .error (.forbiddenException MSG_TENANT_MISMATCH)
        | none => .ok (some t)

/-- The tenant-resolution middleware followed by the tenant guard: resolver
writes the tenant id into CLS and onto the request; the guard then reads
both. -/
def tenantPipeline (decode : String → Option JwtPayload) (req : Request)
    (isPublic : Bool) (user : Option RequestUser) :
    Except GuardException (Option String) :=
  let st := tenantMiddlewareRun decode req
  tenantGuardCanActivate isPublic st.1 user st.2

/-! ## RolesGuard -/

/-- RolesGuard.matchRoles: an empty (or absent) role list fails; a list
containing super_admin passes unconditionally; otherwise the user must hold
at least one required role. -/
def matchRoles (requiredRoles : List String) (userRoles : List String) : Bool :=
  if userRoles.isEmpty then false
  else if userRoles.contains SUPER_ADMIN then true
  else requiredRoles.any (fun role => userRoles.contains role)

/-- RolesGuard.canActivate: requiredRoles is the ROLES_KEY metadata (absent
when the route carries none); absent or empty metadata allows; a missing
user is a ForbiddenException; otherwise matchRoles decides. -/
def rolesGuardCanActivate (requiredRoles : Option (List String))
    (user : Option RequestUser) : Except GuardException Bool :=
  match requiredRoles with
  | none => .ok true
  | some rs =>
    if rs.isEmpty then .ok true
    else
      match user with
      | none => .error (.forbiddenException "User not authenticated")
      | some u =>
        if matchRoles rs u.roles then .ok true
        else .error (.forbiddenException
          ("Insufficient permissions. Required roles: " ++
            String.intercalate ", " rs))

/-! ## PrismaService: tenant-isolation middleware (the data gateway) -/

/-- A field value inside a Prisma where / data object.  Only the shapes the
middleware manipulates are needed: string ids, the explicit null used by
soft delete, and Date values (new Date(), abstracted as a clock reading). -/
inductive FieldVal where
  | str (s : String)
  | nullv
  | date (t : Nat)
deriving DecidableEq

/-- A JS object used as args.where / args.data / args.create: an
association list of field names to values.  Field order is immaterial to
the object semantics; the spread rewrite ...obj with an extra key is
modelled by setField. -/
abbrev WhereObj := List (String × FieldVal)

/-- The JS spread / assignment that sets one key of an object, overwriting
an existing entry. -/
def setField (w : WhereObj) (k : String) (v : FieldVal) : WhereObj :=
  (w.filter (fun kv => kv.1 ≠ k)) ++ [(k, v)]

/-- Reads one key of an object; none models the JS undefined used by the
deletedAt === undefined test. -/
def getField (w : WhereObj) (k : String) : Option FieldVal :=
  (w.find? (fun kv => kv.1 = k)).map (fun kv => kv.2)

/-- The params.args record of a Prisma middleware invocation.  Each object
may be absent (JS undefined).  createArg is the args.create object of an
upsert; the args.where keyword is spelled whereClause because where is
reserved in Lean. -/
structure PrismaArgs where
  whereClause : Option WhereObj
  data : Option WhereObj
  createArg : Option WhereObj
deriving DecidableEq

/-- The params record handed to a Prisma middleware: target model, action
name, arguments. -/
structure PrismaParams where
  model : String
  action : String
  args : PrismaArgs
deriving DecidableEq

/-- The nonTenantModels list of the tenant-isolation middleware. -/
def nonTenantModels : List String := ["Tenant"]

/-- The tenantScopedModels list of the tenant-isolation middleware. -/
def tenantScopedModels : List String :=
  ["User", "Role", "Permission", "UserRole", "RolePermission",
   "ApiKey", "AuditLog", "Subscription", "Invitation", "Webhook",
   "WebhookDelivery"]

/-- Adds the tenantId filter to args.where (the source spreads
...params.args.where, which treats an undefined where as the empty
object). -/
def setTenantWhere (t : String) (p : PrismaParams) : PrismaParams :=
  { p with args := { p.args with
      whereClause := some (setField (p.args.whereClause.getD []) "tenantId"
        (FieldVal.str t)) } }

/-- The per-action rewrite of the tenant-isolation middleware, applied when
the model is tenant scoped and a truthy tenant id is in context.  The
source is a chain of if / else if branches on params.action. -/
def applyTenantScope (t : String) (p : PrismaParams) : PrismaParams :=
  if p.action = "findUnique" ∨ p.action = "findFirst" then setTenantWhere t p
  else if p.action = "findMany" then setTenantWhere t p
  else if p.action = "count" then setTenantWhere t p
  else if p.action = "aggregate" then setTenantWhere t p
  else if p.action = "update" ∨ p.action = "updateMany" then setTenantWhere t p
  else if p.action = "delete" ∨ p.action = "deleteMany" then setTenantWhere t p
  else if p.action = "create" then
    { p with args := { p.args with
        data := some (setField (p.args.data.getD []) "tenantId"
          (FieldVal.str t)) } }
  else if p.action = "upsert" then
    { (setTenantWhere t p) with args := { (setTenantWhere t p).args with
        createArg := some (setField (p.args.createArg.getD []) "tenantId"
          (FieldVal.str t)) } }
  else p

/-- The tenant-isolation middleware registered in the PrismaService
constructor: models in nonTenantModels pass through; otherwise the tenant
id is read from CLS and, only if it is truthy (if (tenantId)) and the model
is tenant scoped, the per-action rewrite is applied; in every case the
middleware then calls next(params). -/
def tenantIsolationMiddleware (clsTenant : Option String) (p : PrismaParams) :
    PrismaParams :=
  if nonTenantModels.contains p.model then p
  else
    match clsTenant with
    | some t =>
      if t = "" then p
      else if tenantScopedModels.contains p.model then applyTenantScope t p
      else p
    | none => p

/-- The observable outcome of invoking the gateway: the middleware either
rejects the operation or hands (possibly rewritten) params to next for
execution.  The rejected constructor exists so the fail-closed property is
statable; the source middleware has no rejection path. -/
inductive GatewayOutcome where
  | executed (p : PrismaParams)
  | rejected (err : String)
deriving DecidableEq

/-- Whether a gateway outcome is a rejection. -/
def GatewayOutcome.isRejected : GatewayOutcome → Bool
  | .rejected _ => true
  | .executed _ => false

/-- Invoking a persistence operation through the PrismaService gateway with
the given CLS tenant id: the tenant-isolation middleware transforms the
params and the operation is executed. -/
def prismaTenantGateway (clsTenant : Option String) (p : PrismaParams) :
    GatewayOutcome :=
  .executed (tenantIsolationMiddleware clsTenant p)

/-! ## PrismaService.enableSoftDelete -/

/-- First middleware added by enableSoftDelete: delete becomes update with
data replaced by a deleted marker; deleteMany becomes updateMany with the
marker merged into existing data (or fresh data when absent).  The source
is two consecutive independent if statements. -/
def softDeleteWriteMw (now : Nat) (p : PrismaParams) : PrismaParams :=
  let p1 :=
    if p.action = "delete" then
      { p with
        action := "update",
        args := { p.args with data := some [("deletedAt", FieldVal.date now)] } }
    else p
  if p1.action = "deleteMany" then
    { p1 with
      action := "updateMany",
      args := { p1.args with
        data := some (setField (p1.args.data.getD []) "deletedAt"
          (FieldVal.date now)) } }
  else p1

/-- Second middleware added by enableSoftDelete: findUnique / findFirst are
rewritten to findFirst and where.deletedAt is assigned null
unconditionally (the source assumes args.where is present for these
actions, as the Prisma client API requires; an absent where is left
absent here where the source would throw); findMany gets deletedAt = null
only when the caller did not already supply a deletedAt condition
(deletedAt === undefined), creating a fresh where when where is absent. -/
def softDeleteReadMw (p : PrismaParams) : PrismaParams :=
  let p1 :=
    if p.action = "findUnique" ∨ p.action = "findFirst" then
      { p with
        action := "findFirst",
        args := { p.args with
          whereClause := p.args.whereClause.map
            (fun w => setField w "deletedAt" FieldVal.nullv) } }
    else p
  if p1.action = "findMany" then
    match p1.args.whereClause with
    | some w =>
      if getField w "deletedAt" = none then
        { p1 with args := { p1.args with
            whereClause := some (setField w "deletedAt" FieldVal.nullv) } }
      else p1
    | none =>
      { p1 with args := { p1.args with
          whereClause := some [("deletedAt", FieldVal.nullv)] } }
  else p1

/-- The two soft-delete middlewares in registration order (the write
rewrite runs before the read filter in the Prisma middleware chain). -/
def softDeleteRun (now : Nat) (p : PrismaParams) : PrismaParams :=
  softDeleteReadMw (softDeleteWriteMw now p)

/-! ## PrismaService.withoutTenantScope -/

/-- PrismaService.withoutTenantScope.  The CLS tenant slot is an
Option String (none is the undefined written by cls.set(key, undefined)).
The callback receives the CLS tenant visible while it runs and returns its
outcome (ok on return, error on throw, both carried by Except) together
with the CLS tenant as it left it.  The source saves the original value,
clears the slot, runs the callback, and in a finally block restores the
saved value, so the restore happens on both outcomes. -/
def withoutTenantScope {E A : Type} (callback : Option String → Except E A × Option String)
    (cls : Option String) : Except E A × Option String :=
  let originalTenantId := cls
  let outcome := callback none
  (outcome.1, originalTenantId)

/-! ## AuditInterceptor -/

/-- The AUDIT_KEY metadata read by the interceptor. -/
structure AuditOptions where
  action : String
  resource : String
  description : Option String
deriving DecidableEq

/-- The audit record the interceptor emits (through the logger; the
persistent store write is a TODO in the source): request data plus the
outcome status. -/
structure AuditEntry where
  action : String
  resource : String
  userId : Option String
  tenantId : Option String
  status : String
  errorMsg : Option String
deriving DecidableEq

/-- AuditInterceptor.intercept, applied to the outcome of the underlying
handler (the rxjs stream carries either a value or an error; tap observes
it without altering it).  Returns the outcome delivered to the caller and
the list of audit entries emitted.  emissionOk stands for whether the audit
write itself succeeds; the source never branches on it (the tap callbacks
only log and their results are discarded). -/
def auditIntercept {R : Type} (opts : Option AuditOptions)
    (userId tenantId : Option String) (emissionOk : Bool)
    (outcome : Except String R) : Except String R × List AuditEntry :=
  match opts with
  | none => (outcome, [])
  | some o =>
    match outcome with
    | .ok r =>
      (.ok r,
       [{ action := o.action, resource := o.resource, userId := userId,
          tenantId := tenantId, status := "SUCCESS", errorMsg := none }])
    | .error e =>
      (.error e,
       [{ action := o.action, resource := o.resource, userId := userId,
          tenantId := tenantId, status := "FAILURE", errorMsg := some e }])

/-! ## Permission guard (modelled from the spec) -/

/-- A role together with its assigned permission strings (resource:action
pairs), as in the Role / RolePermission data model. -/
structure RoleDef where
  name : String
  permissions : List String
deriving DecidableEq

/-- The union of permissions across a list of roles. -/
def unionPermissions (roles : List RoleDef) : List String :=
  (roles.map (fun r => r.permissions)).foldr (fun a b => a ++ b) []

/-- Modelled from the spec: the repository declares the Permissions
decorator (PERMISSIONS_KEY metadata, src/common/decorators) and a
User.hasPermission stub, but contains no permission guard implementation
(PermissionsGuard is an unchecked TODO in ARCHITECTURE.md).  Following
section 4.4 guard 6 of the spec: given the required fine-grained permission
set, Deny with InsufficientPermission unless the union of permissions
across the Principal's roles covers every required permission. -/
def permissionsGuardCanActivate (required : List String)
    (roles : List RoleDef) : Except String Bool :=
  if required.all (fun p => roles.any (fun r => r.permissions.contains p)) then
    .ok true
  else .error "InsufficientPermission"

/-! ## Helper lemmas -/

theorem jsNorm_ne_empty {o : Option String} {t : String}
    (h : jsNorm o = some t) : t ≠ "" := by
  cases o with
  | none => simp [jsNorm] at h
  | some s =>
    by_cases hs : s = ""
    · simp [jsNorm, hs] at h
    · simp [jsNorm, hs] at h
      exact h ▸ hs

theorem jsOr_eq_some {a b : Option String} {t : String}
    (h : jsOr a b = some t) : a = some t ∨ b = some t := by
  cases a with
  | none => exact Or.inr h
  | some s =>
    by_cases hs : s = ""
    · simp [jsOr, hs] at h
      exact Or.inr h
    · simp [jsOr, hs] at h
      exact Or.inl (by rw [h])

theorem jsOr_some_of_ne {b : Option String} {t : String} (h : t ≠ "") :
    jsOr (some t) b = some t := by
  simp [jsOr, h]

theorem extractFromSlug_eq_none (req : Request) : extractFromSlug req = none := by
  unfold extractFromSlug
  cases slugCapture req.path <;> rfl

theorem extractFromJWT_ne_empty {decode : String → Option JwtPayload}
    {req : Request} {t : String} (h : extractFromJWT decode req = some t) :
    t ≠ "" := by
  unfold extractFromJWT at h
  split at h
  · simp at h
  · split at h
    · simp at h
    · exact jsNorm_ne_empty h

theorem extractFromHeader_ne_empty {req : Request} {t : String}
    (h : extractFromHeader req = some t) : t ≠ "" :=
  jsNorm_ne_empty h

theorem tenantResolve_ne_empty {decode : String → Option JwtPayload}
    {req : Request} {t : String} (h : tenantResolve decode req = some t) :
    t ≠ "" := by
  unfold tenantResolve at h
  rcases jsOr_eq_some h with h1 | h2
  · exact extractFromJWT_ne_empty h1
  · rcases jsOr_eq_some h2 with h3 | h4
    · exact extractFromHeader_ne_empty h3
    · rw [extractFromSlug_eq_none] at h4
      simp at h4

theorem tenantMiddlewareRun_of_resolve {decode : String → Option JwtPayload}
    {req : Request} {t : String} (h : tenantResolve decode req = some t) :
    tenantMiddlewareRun decode req = (some t, some t) := by
  have ht := tenantResolve_ne_empty h
  unfold tenantMiddlewareRun
  rw [h]
  simp [ht]

theorem mem_unionPermissions (roles : List RoleDef) (p : String) :
    p ∈ unionPermissions roles ↔ ∃ r ∈ roles, p ∈ r.permissions := by
  induction roles with
  | nil => simp [unionPermissions]
  | cons r rs ih =>
    simp only [unionPermissions, List.map_cons, List.foldr_cons] at ih ⊢
    simp [List.mem_append, ih]

/-! ## Claim theorems -/

/-- C1 counterexample: the claim says a persistence operation on a
tenant-scoped record type (User is in tenantScopedModels) invoked with no
tenant id in context and no escape hatch is rejected; at this concrete
input the gateway executes the operation instead of rejecting it. -/
theorem C1_counterexample :
    tenantScopedModels.contains "User" = true ∧
    (prismaTenantGateway none
      { model := "User", action := "findMany",
        args := { whereClause := none, data := none, createArg := none } }).isRejected
      = false := by decide

/-- C1 (amended): when the CLS tenant id is not truthy (absent or empty)
the gateway does not reject: the tenant-isolation middleware leaves the
params untouched and the operation executes with no tenant filter (it
fails open; the source middleware has no rejection path at all). -/
theorem C1_fails_open (clsTenant : Option String) (p : PrismaParams)
    (h : jsTruthy clsTenant = false) :
    prismaTenantGateway clsTenant p = .executed p := by
  unfold prismaTenantGateway tenantIsolationMiddleware
  split
  · rfl
  · cases clsTenant with
    | none => rfl
    | some t =>
      simp [jsTruthy] at h
      simp [h]

/-- Witness for C1_fails_open at a concrete tenant-scoped operation. -/
theorem C1_fails_open_witness :
    prismaTenantGateway none
      { model := "User", action := "findMany",
        args := { whereClause := none, data := none, createArg := none } } =
    GatewayOutcome.executed
      { model := "User", action := "findMany",
        args := { whereClause := none, data := none, createArg := none } } :=
  C1_fails_open none
    { model := "User", action := "findMany",
      args := { whereClause := none, data := none, createArg := none } }
    (by decide)

/-- C2 counterexample: on a route marked public the tenant guard returns
allow immediately, so a principal of tenant t1 presented against resolved
tenant t2 is not denied with TenantMismatch, contradicting the claim that
public routes are exempt only from requiring a principal. -/
theorem C2_counterexample :
    tenantGuardCanActivate true (some "t2")
      (some { id := "u1", tenantId := "t1", roles := ["admin"] }) none =
    Except.ok none := rfl

/-- C2 (amended): on routes not marked public, whenever the resolver yields
a tenant id (from any of the three sources: token claim, header, slug) that
differs from the present principal's tenant id, the pipeline denies with
TenantMismatch; on routes marked public the tenant guard allows immediately
and performs no tenant-match check. -/
theorem C2_tenant_mismatch :
    (∀ (decode : String → Option JwtPayload) (req : Request)
      (u : RequestUser) (t : String),
      tenantResolve decode req = some t → u.tenantId ≠ t →
      tenantPipeline decode req false (some u) =
        .error (.forbiddenException MSG_TENANT_MISMATCH)) ∧
    (∀ (decode : String → Option JwtPayload) (req : Request)
      (user : Option RequestUser),
      tenantPipeline decode req true user =
        .ok (tenantMiddlewareRun decode req).2) := by
  constructor
  · intro decode req u t h hne
    have ht := tenantResolve_ne_empty h
    unfold tenantPipeline
    rw [tenantMiddlewareRun_of_resolve h]
    simp [tenantGuardCanActivate, jsOr, ht, hne]
  · intro decode req user
    unfold tenantPipeline tenantGuardCanActivate
    simp

/-- Witness for C2_tenant_mismatch: principal of tenant t1 against a
token-resolved tenant t2 on a non-public route is denied. -/
theorem C2_tenant_mismatch_witness :
    tenantPipeline (fun tok => if tok = "tok2" then some ⟨some "t2"⟩ else none)
      { authorization := some "Bearer tok2", tenantHeader := none, path := "/x" }
      false (some { id := "u1", tenantId := "t1", roles := ["admin"] }) =
    Except.error (GuardException.forbiddenException MSG_TENANT_MISMATCH) :=
  C2_tenant_mismatch.1
    (fun tok => if tok = "tok2" then some ⟨some "t2"⟩ else none)
    { authorization := some "Bearer tok2", tenantHeader := none, path := "/x" }
    { id := "u1", tenantId := "t1", roles := ["admin"] } "t2"
    (by decide) (by decide)

/-- C3: the tenant resolver applies its sources in strict priority order
with first match winning: a tenant claim decoded (without verification)
from the bearer token wins over everything; the header is consulted only
when the token yields nothing; the slug only when both yield nothing.  A
later source never overrides an earlier one. -/
theorem C3_resolver_priority :
    (∀ (decode : String → Option JwtPayload) (req : Request) (t : String),
      extractFromJWT decode req = some t → tenantResolve decode req = some t) ∧
    (∀ (decode : String → Option JwtPayload) (req : Request) (t : String),
      extractFromJWT decode req = none → extractFromHeader req = some t →
      tenantResolve decode req = some t) ∧
    (∀ (decode : String → Option JwtPayload) (req : Request),
      extractFromJWT decode req = none → extractFromHeader req = none →
      tenantResolve decode req = extractFromSlug req) := by
  refine ⟨?_, ?_, ?_⟩
  · intro decode req t h
    unfold tenantResolve
    rw [h]
    exact jsOr_some_of_ne (extractFromJWT_ne_empty h)
  · intro decode req t h1 h2
    unfold tenantResolve
    rw [h1, h2]
    exact jsOr_some_of_ne (extractFromHeader_ne_empty h2)
  · intro decode req h1 h2
    unfold tenantResolve
    rw [h1, h2]
    rfl

/-- Witness for C3_resolver_priority: scenario D, token claims t1 and the
header says t2; the resolved tenant is t1 (token wins). -/
theorem C3_resolver_priority_witness :
    tenantResolve (fun tok => if tok = "tok1" then some ⟨some "t1"⟩ else none)
      { authorization := some "Bearer tok1", tenantHeader := some "t2",
        path := "/x" } = some "t1" :=
  C3_resolver_priority.1
    (fun tok => if tok = "tok1" then some ⟨some "t1"⟩ else none)
    { authorization := some "Bearer tok1", tenantHeader := some "t2",
      path := "/x" } "t1" (by decide)

/-- C4: evaluation of the code at the failing input.  The path
/public/book/acme does match the public slug pattern (captured slug acme),
yet the resolver yields no tenant at all: extractFromSlug returns null
unconditionally (the tenant-by-slug lookup is a commented-out placeholder),
so no slug ever resolves to a tenant id, contradicting scenario C. -/
theorem C4_slug_never_resolves :
    slugCapture "/public/book/acme" = some "acme" ∧
    tenantResolve (fun _ => none)
      { authorization := none, tenantHeader := none,
        path := "/public/book/acme" } = none := by decide

/-- C5: withoutTenantScope clears the ambient tenant id for the duration of
the callback (the callback observes none) and afterwards the ambient tenant
id equals exactly the value present before the call, for every prior value
including absent and whether the callback returns normally or throws (both
outcomes of cb are carried by Except). -/
theorem C5_withoutTenantScope_restores {E A : Type}
    (cb : Option String → Except E A × Option String) (cls : Option String) :
    (withoutTenantScope cb cls).2 = cls ∧
    (withoutTenantScope cb cls).1 = (cb none).1 :=
  ⟨rfl, rfl⟩

/-- C6: a principal holding super_admin passes the role guard for every
required-role set (absent, empty, singleton or multi-role metadata); the
tenant guard ignores the principal's roles entirely (its verdict is
invariant under changing them), and in particular a super-admin principal
whose tenant id differs from the resolved tenant id is still denied with
TenantMismatch on a non-public route. -/
theorem C6_super_admin :
    (∀ (required : Option (List String)) (u : RequestUser),
      u.roles.contains SUPER_ADMIN = true →
      rolesGuardCanActivate required (some u) = .ok true) ∧
    (∀ (isPublic : Bool) (cls rt : Option String) (u : RequestUser)
      (rs : List String),
      tenantGuardCanActivate isPublic cls (some { u with roles := rs }) rt =
      tenantGuardCanActivate isPublic cls (some u) rt) ∧
    (∀ (cls rt : Option String) (u : RequestUser) (t : String),
      jsOr cls rt = some t → t ≠ "" →
      u.roles.contains SUPER_ADMIN = true → u.tenantId ≠ t →
      tenantGuardCanActivate false cls (some u) rt =
        .error (.forbiddenException MSG_TENANT_MISMATCH)) := by
  refine ⟨?_, ?_, ?_⟩
  · intro required u h
    have hne : u.roles.isEmpty = false := by
      cases hl : u.roles with
      | nil => rw [hl] at h; simp [List.contains] at h
      | cons a l => simp
    have hmem : SUPER_ADMIN ∈ u.roles := by simpa using h
    cases required with
    | none => rfl
    | some rs =>
      by_cases he : rs.isEmpty
      · simp [rolesGuardCanActivate, he]
      · simp [rolesGuardCanActivate, he, matchRoles, hne, hmem]
  · intro isPublic cls rt u rs
    rfl
  · intro cls rt u t h ht hsa hne
    unfold tenantGuardCanActivate
    rw [h]
    simp [ht, hne]

/-- Witness for C6_super_admin: a super-admin principal passes a multi-role
requirement, and the same principal with tenant t1 against resolved tenant
t2 is denied by the tenant guard. -/
theorem C6_super_admin_witness :
    rolesGuardCanActivate (some ["admin", "editor"])
      (some { id := "u1", tenantId := "t1", roles := ["super_admin"] }) =
      Except.ok true ∧
    tenantGuardCanActivate false (some "t2")
      (some { id := "u1", tenantId := "t1", roles := ["super_admin"] }) none =
      Except.error (GuardException.forbiddenException MSG_TENANT_MISMATCH) :=
  ⟨C6_super_admin.1 (some ["admin", "editor"])
      { id := "u1", tenantId := "t1", roles := ["super_admin"] } (by decide),
   C6_super_admin.2.2 (some "t2") none
      { id := "u1", tenantId := "t1", roles := ["super_admin"] } "t2"
      (by decide) (by decide) (by decide) (by decide)⟩

/-- C7 (spec-modelled permission guard, the repository has none): the guard
allows exactly when the union of permissions across the principal's roles
covers every required permission, and denies with InsufficientPermission
otherwise; in particular a principal whose only role is viewer, on an
operation requiring users:delete not held by viewer, is denied with
InsufficientPermission (scenario F). -/
theorem C7_permission_guard :
    (∀ (required : List String) (roles : List RoleDef),
      permissionsGuardCanActivate required roles = .ok true ↔
        ∀ p ∈ required, p ∈ unionPermissions roles) ∧
    permissionsGuardCanActivate ["users:delete"]
      [{ name := "viewer", permissions := ["users:read"] }] =
      .error "InsufficientPermission" := by
  constructor
  · intro required roles
    constructor
    · intro hok p hp
      by_cases h :
          required.all (fun p => roles.any fun r => r.permissions.contains p)
            = true
      · have hall := List.all_eq_true.mp h p hp
        simp only at hall
        rcases List.any_eq_true.mp hall with ⟨r, hr, hc⟩
        exact (mem_unionPermissions roles p).mpr ⟨r, hr, by simpa using hc⟩
      · exfalso
        unfold permissionsGuardCanActivate at hok
        rw [if_neg h] at hok
        exact Except.noConfusion hok
    · intro hall
      have h :
          required.all (fun p => roles.any fun r => r.permissions.contains p)
            = true := by
        rw [List.all_eq_true]
        intro p hp
        rcases (mem_unionPermissions roles p).mp (hall p hp) with ⟨r, hr, hc⟩
        rw [List.any_eq_true]
        exact ⟨r, hr, by simpa using hc⟩
      unfold permissionsGuardCanActivate
      rw [if_pos h]
  · rfl

/-- Witness for C7_permission_guard: the viewer role does cover a
requirement it holds. -/
theorem C7_permission_guard_witness :
    permissionsGuardCanActivate ["users:read"]
      [{ name := "viewer", permissions := ["users:read"] }] = Except.ok true :=
  (C7_permission_guard.1 ["users:read"]
    [{ name := "viewer", permissions := ["users:read"] }]).mpr (by decide)

/-- C8 counterexample: the claim says a caller who explicitly supplies a
deletedAt condition opts out of the exclude-soft-deleted predicate; on a
findUnique whose where carries an explicit deletedAt condition the
middleware nevertheless overwrites it with null (and rewrites the action to
findFirst), so the opt-out does not exist for findUnique/findFirst. -/
theorem C8_counterexample :
    softDeleteRun 0
      { model := "User", action := "findUnique",
        args := { whereClause := some [("id", FieldVal.str "u1"),
                    ("deletedAt", FieldVal.date 5)],
                  data := none, createArg := none } } =
      { model := "User", action := "findFirst",
        args := { whereClause := some [("id", FieldVal.str "u1"),
                    ("deletedAt", FieldVal.nullv)],
                  data := none, createArg := none } } := by decide

/-- C8 (amended): with soft delete enabled, delete becomes update with data
replaced by the deleted marker and deleteMany becomes updateMany with the
marker merged into data; findMany gets the exclude-soft-deleted predicate
deletedAt = null added unless the caller explicitly supplied a deletedAt
condition (the only opt-out); findUnique and findFirst are rewritten to
findFirst with where.deletedAt set to null unconditionally, so the explicit
deletedAt opt-out does not apply to them. -/
theorem C8_soft_delete :
    (∀ (now : Nat) (p : PrismaParams), p.action = "delete" →
      softDeleteRun now p =
        { p with
          action := "update",
          args := { p.args with
            data := some [("deletedAt", FieldVal.date now)] } }) ∧
    (∀ (now : Nat) (p : PrismaParams), p.action = "deleteMany" →
      softDeleteRun now p =
        { p with
          action := "updateMany",
          args := { p.args with
            data := some (setField (p.args.data.getD []) "deletedAt"
              (FieldVal.date now)) } }) ∧
    (∀ (now : Nat) (p : PrismaParams),
      p.action = "findUnique" ∨ p.action = "findFirst" →
      softDeleteRun now p =
        { p with
          action := "findFirst",
          args := { p.args with
            whereClause := p.args.whereClause.map
              (fun w => setField w "deletedAt" FieldVal.nullv) } }) ∧
    (∀ (now : Nat) (p : PrismaParams) (w : WhereObj), p.action = "findMany" →
      p.args.whereClause = some w → getField w "deletedAt" = none →
      softDeleteRun now p =
        { p with args := { p.args with
            whereClause := some (setField w "deletedAt" FieldVal.nullv) } }) ∧
    (∀ (now : Nat) (p : PrismaParams) (w : WhereObj), p.action = "findMany" →
      p.args.whereClause = some w → getField w "deletedAt" ≠ none →
      softDeleteRun now p = p) ∧
    (∀ (now : Nat) (p : PrismaParams), p.action = "findMany" →
      p.args.whereClause = none →
      softDeleteRun now p =
        { p with args := { p.args with
            whereClause := some [("deletedAt", FieldVal.nullv)] } }) := by
  refine ⟨?_, ?_, ?_, ?_, ?_, ?_⟩
  · intro now p h
    simp [softDeleteRun, softDeleteWriteMw, softDeleteReadMw, h]
  · intro now p h
    simp [softDeleteRun, softDeleteWriteMw, softDeleteReadMw, h]
  · intro now p h
    rcases h with h | h <;>
      simp [softDeleteRun, softDeleteWriteMw, softDeleteReadMw, h]
  · intro now p w h hw hd
    simp [softDeleteRun, softDeleteWriteMw, softDeleteReadMw, h, hw, hd]
  · intro now p w h hw hd
    simp [softDeleteRun, softDeleteWriteMw, softDeleteReadMw, h, hw, hd]
  · intro now p h hw
    simp [softDeleteRun, softDeleteWriteMw, softDeleteReadMw, h, hw]

/-- Witness for C8_soft_delete: a concrete delete is rewritten to an
update carrying the deleted marker, and a concrete findMany with an
explicit deletedAt condition is left untouched. -/
theorem C8_soft_delete_witness :
    softDeleteRun 7
      { model := "User", action := "delete",
        args := { whereClause := some [("id", FieldVal.str "u1")],
                  data := none, createArg := none } } =
      { model := "User", action := "update",
        args := { whereClause := some [("id", FieldVal.str "u1")],
                  data := some [("deletedAt", FieldVal.date 7)],
                  createArg := none } } ∧
    softDeleteRun 7
      { model := "User", action := "findMany",
        args := { whereClause := some [("deletedAt", FieldVal.nullv)],
                  data := none, createArg := none } } =
      { model := "User", action := "findMany",
        args := { whereClause := some [("deletedAt", FieldVal.nullv)],
                  data := none, createArg := none } } :=
  ⟨C8_soft_delete.1 7
      { model := "User", action := "delete",
        args := { whereClause := some [("id", FieldVal.str "u1")],
                  data := none, createArg := none } } (by decide),
   C8_soft_delete.2.2.2.2.1 7
      { model := "User", action := "findMany",
        args := { whereClause := some [("deletedAt", FieldVal.nullv)],
                  data := none, createArg := none } }
      [("deletedAt", FieldVal.nullv)] (by decide) (by decide) (by decide)⟩

/-- C9: the outcome the audit interceptor delivers to the caller equals the
outcome the underlying handler produced, on success and on failure alike,
for audited and unaudited operations, and independently of whether the
audit emission itself succeeds. -/
theorem C9_audit_transparent {R : Type} (opts : Option AuditOptions)
    (userId tenantId : Option String) (emissionOk : Bool)
    (outcome : Except String R) :
    (auditIntercept opts userId tenantId emissionOk outcome).1 = outcome := by
  cases opts <;> cases outcome <;> rfl

/-- C10: on a route not marked public, when no tenant id is present
(neither in CLS nor attached to the request, i.e. both are falsy) the
tenant guard rejects with the tenant-required condition regardless of the
principal; the guard reads no route metadata other than the public flag,
so every non-public route unconditionally requires a resolved tenant. -/
theorem C10_tenant_required (clsTenant reqTenant : Option String)
    (user : Option RequestUser) (h1 : jsTruthy clsTenant = false)
    (h2 : jsTruthy reqTenant = false) :
    tenantGuardCanActivate false clsTenant user reqTenant =
      .error (.unauthorizedException MSG_TENANT_REQUIRED) := by
  unfold tenantGuardCanActivate
  cases clsTenant with
  | none =>
    cases reqTenant with
    | none => rfl
    | some s =>
      simp [jsTruthy] at h2
      simp [jsOr, h2]
  | some s =>
    simp [jsTruthy] at h1
    cases reqTenant with
    | none => simp [jsOr, h1]
    | some s2 =>
      simp [jsTruthy] at h2
      simp [jsOr, h1, h2]

/-- Witness for C10_tenant_required: no tenant anywhere, no user. -/
theorem C10_tenant_required_witness :
    tenantGuardCanActivate false none none none =
      Except.error (GuardException.unauthorizedException MSG_TENANT_REQUIRED) :=
  C10_tenant_required none none none (by decide) (by decide)

end TenantCore
